import Mathlib

/-!
Shallow embedding of the MikroTik RouterBoot hard-config WLAN-calibration
decode pipeline (drivers/platform/mikrotik/rb_hardconfig.c) and proofs about
it.

Modelling conventions:
* Bytes are `Nat`; memory reachable through a C pointer is a total function
  `Nat → Nat` (so reads past a logical length are representable, as they are
  in C); byte regions handed to external helpers are `List Nat`.
* `size_t` arithmetic that can wrap (the `templen -=` subtraction and the
  `lzo_len = inlen + sizeof(hc_lzor_prefix)` addition in
  `hc_wlan_data_unpack_lzor`, and the dispatcher's `tlen -= sizeof(magic)`)
  is modelled explicitly modulo `2 ^ 64`.
* External collaborators whose code is not part of this repository's provided
  source (`routerboot_tag_find`, `routerboot_rle_decode`,
  `lzo1x_decompress_safe`) are parameters of the pipeline functions; their
  contracts come from the spec.  `lzo1x_decompress_safe` returns a status
  (success, `LZO_E_INPUT_NOT_CONSUMED`, or another error code) together with
  the bytes it produced.
* Buffer allocation (`kmalloc`) and failure thereof are not modelled; the
  uninitialised contents of the freshly allocated scratch buffer are an
  arbitrary function `junk : Nat → Nat`.
-/

/-- Two to the sixty-fourth: the modulus of `size_t` arithmetic. -/
def U64 : Nat := 2 ^ 64

/-- Wrap-around `size_t` subtraction `(a - b) mod 2 ^ 64`, for operands with
`b ≤ a + 2 ^ 64` (every use in this file satisfies it). -/
def sub64 (a b : Nat) : Nat := (a + U64 - b) % U64

/-- Little-endian 32-bit load `*(u32 *)(mem + p)` (the driver reads the magic
words with native endianness; the byte order is irrelevant to every claim,
little-endian is fixed here). -/
def readWord32 (mem : Nat → Nat) (p : Nat) : Nat :=
  mem p + 2 ^ 8 * mem (p + 1) + 2 ^ 16 * mem (p + 2) + 2 ^ 24 * mem (p + 3)

/-- Modelled from the spec: the ERD magic constant `RB_MAGIC_ERD` comes from
routerboot.h, which is not part of the provided source; the spec only needs it
to be a fixed 32-bit marker distinct from the LZOR marker.  The value is the
little-endian reading of "DRE\x00". -/
def RB_MAGIC_ERD : Nat := 0x00455244

/-- Modelled from the spec: the LZOR magic constant `RB_MAGIC_LZOR` from
routerboot.h (not in the provided source); a fixed 32-bit marker distinct
from `RB_MAGIC_ERD`. -/
def RB_MAGIC_LZOR : Nat := 0x524F5A4C

/-- Modelled from the spec: `RB_ART_SIZE` from routerboot.h (not in the
provided source), the fixed output capacity, "a well-known constant
representing the largest calibration payload ever produced". -/
def RB_ART_SIZE : Nat := 0x10000

/-- Result of `lzo1x_decompress_safe`: full success, the special
`LZO_E_INPUT_NOT_CONSUMED` signal, or any other (fatal) error code. -/
inductive LzoStatus where
  | ok
  | inputNotConsumed
  | err (code : Int)
deriving DecidableEq

/-- Error taxonomy of the pipeline, mirroring the driver's return codes:
`EIO` (record out of bounds of the blob), `EFBIG` (buffer too large),
`ENOENT` (record absent / zero length), `DecompressionFailed` (fatal
`lzo1x_decompress_safe` result, code carried through),
`EmbeddedMagicNotFound` (`-ENODATA` from the aligned scan), `MissingTag`
(`routerboot_tag_find` failed), `InvalidLength` (`-EINVAL` length check),
`DecodeError` (`routerboot_rle_decode` failed). -/
inductive UnpackErr where
  | EIO
  | EFBIG
  | ENOENT
  | DecompressionFailed (status : LzoStatus)
  | EmbeddedMagicNotFound
  | MissingTag
  | InvalidLength
  | DecodeError
deriving DecidableEq

/-- The fixed dictionary-priming blob `hc_lzor_prefix` (rb_hardconfig.c lines
91-265), 1380 bytes. -/
def hc_lzor_prefix : List Nat := [
  0x00, 0x05, 0x4c, 0x4c, 0x44, 0x00, 0x34, 0xfe,
  0xfe, 0x34, 0x11, 0x3c, 0x1e, 0x3c, 0x2e, 0x3c,
  0x4c, 0x34, 0x00, 0x52, 0x62, 0x92, 0xa2, 0xb2,
  0xc3, 0x2a, 0x14, 0x00, 0x00, 0x05, 0xfe, 0x6a,
  0x3c, 0x16, 0x32, 0x16, 0x11, 0x1e, 0x12, 0x46,
  0x32, 0x46, 0x11, 0x4e, 0x12, 0x36, 0x32, 0x36,
  0x11, 0x3e, 0x12, 0x5a, 0x9a, 0x64, 0x00, 0x04,
  0xfe, 0x10, 0x3c, 0x00, 0x01, 0x00, 0x00, 0x28,
  0x0c, 0x00, 0x0f, 0xfe, 0x14, 0x00, 0x24, 0x24,
  0x23, 0x24, 0x24, 0x23, 0x25, 0x22, 0x21, 0x21,
  0x23, 0x22, 0x21, 0x22, 0x21, 0x2d, 0x38, 0x00,
  0x0c, 0x25, 0x25, 0x24, 0x25, 0x25, 0x24, 0x23,
  0x22, 0x21, 0x20, 0x23, 0x21, 0x21, 0x22, 0x21,
  0x2d, 0x38, 0x00, 0x28, 0xb0, 0x00, 0x00, 0x22,
  0x00, 0x00, 0xc0, 0xfe, 0x03, 0x00, 0xc0, 0x00,
  0x62, 0xff, 0x62, 0xff, 0xfe, 0x06, 0x00, 0xbb,
  0xff, 0xba, 0xff, 0xfe, 0x08, 0x00, 0x9e, 0xff,
  0xfe, 0x0a, 0x00, 0x53, 0xff, 0xfe, 0x02, 0x00,
  0x20, 0xff, 0xb1, 0xfe, 0xfe, 0xb2, 0xfe, 0xfe,
  0xed, 0xfe, 0xfe, 0xfe, 0x04, 0x00, 0x3a, 0xff,
  0x3a, 0xff, 0xde, 0xfd, 0x5f, 0x04, 0x33, 0xff,
  0x4c, 0x74, 0x03, 0x05, 0x05, 0xff, 0x6d, 0xfe,
  0xfe, 0x6d, 0xfe, 0xfe, 0xaf, 0x08, 0x63, 0xff,
  0x64, 0x6f, 0x08, 0xac, 0xff, 0xbf, 0x6d, 0x08,
  0x7a, 0x6d, 0x08, 0x96, 0x74, 0x04, 0x00, 0x08,
  0x79, 0xff, 0xda, 0xfe, 0xfe, 0xdb, 0xfe, 0xfe,
  0x56, 0xff, 0xfe, 0x04, 0x00, 0x5e, 0xff, 0x5e,
  0xff, 0x6c, 0xfe, 0xfe, 0xfe, 0x06, 0x00, 0x41,
  0xff, 0x7f, 0x74, 0x03, 0x00, 0x11, 0x44, 0xff,
  0xa9, 0xfe, 0xfe, 0xa9, 0xfe, 0xfe, 0xa5, 0x8f,
  0x01, 0x00, 0x08, 0x01, 0x01, 0x02, 0x04, 0x08,
  0x02, 0x04, 0x08, 0x08, 0x01, 0x01, 0xfe, 0x22,
  0x00, 0x4c, 0x60, 0x64, 0x8c, 0x90, 0xd0, 0xd4,
  0xd8, 0x5c, 0x10, 0x09, 0xd8, 0xff, 0xb0, 0xff,
  0x00, 0x00, 0xba, 0xff, 0x14, 0x00, 0xba, 0xff,
  0x64, 0x00, 0x00, 0x08, 0xfe, 0x06, 0x00, 0x74,
  0xff, 0x42, 0xff, 0xce, 0xff, 0x60, 0xff, 0x0a,
  0x00, 0xb4, 0x00, 0xa0, 0x00, 0xa0, 0xfe, 0x07,
  0x00, 0x0a, 0x00, 0xb0, 0xff, 0x96, 0x4d, 0x00,
  0x56, 0x57, 0x18, 0xa6, 0xff, 0x92, 0x70, 0x11,
  0x00, 0x12, 0x90, 0x90, 0x76, 0x5a, 0x54, 0x54,
  0x4c, 0x46, 0x38, 0x00, 0x10, 0x10, 0x08, 0xfe,
  0x05, 0x00, 0x38, 0x29, 0x25, 0x23, 0x22, 0x22,
  0x1f, 0x00, 0x00, 0x00, 0xf6, 0xe1, 0xdd, 0xf8,
  0xfe, 0x00, 0xfe, 0x15, 0x00, 0x00, 0xd0, 0x02,
  0x74, 0x02, 0x08, 0xf8, 0xe5, 0xde, 0x02, 0x04,
  0x04, 0xfd, 0x00, 0x00, 0x00, 0x07, 0x50, 0x2d,
  0x01, 0x90, 0x90, 0x76, 0x60, 0xb0, 0x07, 0x07,
  0x0c, 0x0c, 0x04, 0xfe, 0x05, 0x00, 0x66, 0x66,
  0x5a, 0x56, 0xbc, 0x01, 0x06, 0xfc, 0xfc, 0xf1,
  0xfe, 0x07, 0x00, 0x24, 0x95, 0x70, 0x64, 0x18,
  0x06, 0x2c, 0xff, 0xb5, 0xfe, 0xfe, 0xb5, 0xfe,
  0xfe, 0xe2, 0x8c, 0x24, 0x02, 0x2f, 0xff, 0x2f,
  0xff, 0xb4, 0x78, 0x02, 0x05, 0x73, 0xff, 0xed,
  0xfe, 0xfe, 0x4f, 0xff, 0x36, 0x74, 0x1e, 0x09,
  0x4f, 0xff, 0x50, 0xff, 0xfe, 0x16, 0x00, 0x70,
  0xac, 0x70, 0x8e, 0xac, 0x40, 0x0e, 0x01, 0x70,
  0x7f, 0x8e, 0xac, 0x6c, 0x00, 0x0b, 0xfe, 0x02,
  0x00, 0xfe, 0x0a, 0x2c, 0x2a, 0x2a, 0x28, 0x26,
  0x1e, 0x1e, 0xfe, 0x02, 0x20, 0x65, 0x20, 0x00,
  0x00, 0x05, 0x12, 0x00, 0x11, 0x1e, 0x11, 0x11,
  0x41, 0x1e, 0x41, 0x11, 0x31, 0x1e, 0x31, 0x11,
  0x70, 0x75, 0x7a, 0x7f, 0x84, 0x89, 0x8e, 0x93,
  0x98, 0x30, 0x20, 0x00, 0x02, 0x00, 0xfe, 0x06,
  0x3c, 0xbc, 0x32, 0x0c, 0x00, 0x00, 0x2a, 0x12,
  0x1e, 0x12, 0x2e, 0x12, 0xcc, 0x12, 0x11, 0x1a,
  0x1e, 0x1a, 0x2e, 0x1a, 0x4c, 0x10, 0x1e, 0x10,
  0x11, 0x18, 0x1e, 0x42, 0x1e, 0x42, 0x2e, 0x42,
  0xcc, 0x42, 0x11, 0x4a, 0x1e, 0x4a, 0x2e, 0x4a,
  0x4c, 0x40, 0x1e, 0x40, 0x11, 0x48, 0x1e, 0x32,
  0x1e, 0x32, 0x2e, 0x32, 0xcc, 0x32, 0x11, 0x3a,
  0x1e, 0x3a, 0x2e, 0x3a, 0x4c, 0x30, 0x1e, 0x30,
  0x11, 0x38, 0x1e, 0x27, 0x9a, 0x01, 0x9d, 0xa2,
  0x2f, 0x28, 0x00, 0x00, 0x46, 0xde, 0xc4, 0xbf,
  0xa6, 0x9d, 0x81, 0x7b, 0x5c, 0x61, 0x40, 0xc7,
  0xc0, 0xae, 0xa9, 0x8c, 0x83, 0x6a, 0x62, 0x50,
  0x3e, 0xce, 0xc2, 0xae, 0xa3, 0x8c, 0x7b, 0x6a,
  0x5a, 0x50, 0x35, 0xd7, 0xc2, 0xb7, 0xa4, 0x95,
  0x7e, 0x72, 0x5a, 0x59, 0x37, 0xfe, 0x02, 0xf8,
  0x8c, 0x95, 0x90, 0x8f, 0x00, 0xd7, 0xc0, 0xb7,
  0xa2, 0x95, 0x7b, 0x72, 0x56, 0x59, 0x32, 0xc7,
  0xc3, 0xae, 0xad, 0x8c, 0x85, 0x6a, 0x63, 0x50,
  0x3e, 0xce, 0xc3, 0xae, 0xa4, 0x8c, 0x7c, 0x6a,
  0x59, 0x50, 0x34, 0xd7, 0xc2, 0xb7, 0xa5, 0x95,
  0x7e, 0x72, 0x59, 0x59, 0x36, 0xfc, 0x05, 0x00,
  0x02, 0xce, 0xc5, 0xae, 0xa5, 0x95, 0x83, 0x72,
  0x5c, 0x59, 0x36, 0xbf, 0xc6, 0xa5, 0xab, 0x8c,
  0x8c, 0x6a, 0x67, 0x50, 0x41, 0x64, 0x07, 0x00,
  0x02, 0x95, 0x8c, 0x72, 0x65, 0x59, 0x3f, 0xce,
  0xc7, 0xae, 0xa8, 0x95, 0x86, 0x72, 0x5f, 0x59,
  0x39, 0xfe, 0x02, 0xf8, 0x8b, 0x7c, 0x0b, 0x09,
  0xb7, 0xc2, 0x9d, 0xa4, 0x83, 0x85, 0x6a, 0x6b,
  0x50, 0x44, 0xb7, 0xc1, 0x64, 0x01, 0x00, 0x06,
  0x61, 0x5d, 0x48, 0x3d, 0xae, 0xc4, 0x9d, 0xad,
  0x7b, 0x85, 0x61, 0x66, 0x48, 0x46, 0xae, 0xc3,
  0x95, 0xa3, 0x72, 0x7c, 0x59, 0x56, 0x38, 0x31,
  0x7c, 0x0b, 0x00, 0x0c, 0x96, 0x91, 0x8f, 0x00,
  0xb7, 0xc0, 0xa5, 0xab, 0x8c, 0x8a, 0x6a, 0x64,
  0x50, 0x3c, 0xb7, 0xc0, 0x9d, 0xa0, 0x83, 0x80,
  0x6a, 0x64, 0x50, 0x3d, 0xb7, 0xc5, 0x9d, 0xa5,
  0x83, 0x87, 0x6c, 0x08, 0x07, 0xae, 0xc0, 0x9d,
  0xa8, 0x83, 0x88, 0x6a, 0x6d, 0x50, 0x46, 0xfc,
  0x05, 0x00, 0x16, 0xbf, 0xc0, 0xa5, 0xa2, 0x8c,
  0x7f, 0x6a, 0x57, 0x50, 0x2f, 0xb7, 0xc7, 0xa5,
  0xb1, 0x8c, 0x8e, 0x72, 0x6d, 0x59, 0x45, 0xbf,
  0xc6, 0xa5, 0xa8, 0x8c, 0x87, 0x6a, 0x5f, 0x50,
  0x37, 0xbf, 0xc2, 0xa5, 0xa4, 0x8c, 0x83, 0x6a,
  0x5c, 0x50, 0x34, 0xbc, 0x05, 0x00, 0x0e, 0x90,
  0x00, 0xc7, 0xc2, 0xae, 0xaa, 0x95, 0x82, 0x7b,
  0x60, 0x61, 0x3f, 0xb7, 0xc6, 0xa5, 0xb1, 0x8c,
  0x8d, 0x72, 0x6b, 0x61, 0x51, 0xbf, 0xc4, 0xa5,
  0xa5, 0x8c, 0x82, 0x72, 0x61, 0x59, 0x39, 0x6c,
  0x26, 0x03, 0x95, 0x82, 0x7b, 0x61, 0x61, 0x40,
  0xfc, 0x05, 0x00, 0x00, 0x7e, 0xd7, 0xc3, 0xb7,
  0xa8, 0x9d, 0x80, 0x83, 0x5d, 0x6a, 0x3f, 0xbf,
  0xc7, 0xa5, 0xa8, 0x8c, 0x84, 0x72, 0x60, 0x61,
  0x46, 0xbf, 0xc2, 0xae, 0xb0, 0x9d, 0x92, 0x83,
  0x6f, 0x6a, 0x50, 0xd7, 0xc3, 0xb7, 0xa7, 0x9d,
  0x80, 0x83, 0x5e, 0x6a, 0x40, 0xfe, 0x02, 0xf8,
  0x8d, 0x96, 0x90, 0x90, 0xfe, 0x05, 0x00, 0x8a,
  0xc4, 0x63, 0xb8, 0x3c, 0xa6, 0x29, 0x97, 0x16,
  0x81, 0x84, 0xb7, 0x5b, 0xa9, 0x33, 0x94, 0x1e,
  0x83, 0x11, 0x70, 0xb8, 0xc2, 0x70, 0xb1, 0x4d,
  0xa3, 0x2a, 0x8d, 0x1b, 0x7b, 0xa8, 0xbc, 0x68,
  0xab, 0x47, 0x9d, 0x27, 0x87, 0x18, 0x75, 0xae,
  0xc6, 0x7d, 0xbb, 0x4d, 0xaa, 0x1c, 0x84, 0x11,
  0x72, 0xa3, 0xbb, 0x6e, 0xad, 0x3c, 0x97, 0x24,
  0x85, 0x16, 0x71, 0x80, 0xb2, 0x57, 0xa4, 0x30,
  0x8e, 0x1c, 0x7c, 0x10, 0x68, 0xbb, 0xbd, 0x75,
  0xac, 0x4f, 0x9e, 0x2b, 0x87, 0x1a, 0x76, 0x96,
  0xc5, 0x5e, 0xb5, 0x3e, 0xa5, 0x1f, 0x8c, 0x12,
  0x7a, 0xc1, 0xc6, 0x42, 0x9f, 0x27, 0x8c, 0x16,
  0x77, 0x0f, 0x67, 0x9d, 0xbc, 0x68, 0xad, 0x36,
  0x95, 0x20, 0x83, 0x11, 0x6d, 0x9b, 0xb8, 0x67,
  0xa8, 0x34, 0x90, 0x1f, 0x7c, 0x10, 0x67, 0x9e,
  0xc9, 0x6a, 0xbb, 0x37, 0xa4, 0x20, 0x90, 0x11,
  0x7b, 0xc6, 0xc8, 0x47, 0xa4, 0x2a, 0x90, 0x18,
  0x7b, 0x10, 0x6c, 0xae, 0xc4, 0x5d, 0xad, 0x37,
  0x9a, 0x1f, 0x85, 0x13, 0x75, 0x70, 0xad, 0x42,
  0x99, 0x25, 0x84, 0x17, 0x74, 0x0b, 0x56, 0x87,
  0xc8, 0x57, 0xb8, 0x2b, 0x9e, 0x19, 0x8a, 0x0d,
  0x74, 0xa7, 0xc8, 0x6e, 0xb9, 0x36, 0xa0, 0x1f,
  0x8b, 0x11, 0x75, 0x94, 0xbe, 0x4b, 0xa5, 0x2a,
  0x92, 0x18, 0x7c, 0x0f, 0x6b, 0xaf, 0xc0, 0x58,
  0xa8, 0x34, 0x94, 0x1d, 0x7d, 0x12, 0x6d, 0x82,
  0xc0, 0x52, 0xb0, 0x25, 0x94, 0x14, 0x7f, 0x0c,
  0x68, 0x84, 0xbf, 0x3e, 0xa4, 0x22, 0x8e, 0x10,
  0x76, 0x0b, 0x65, 0x88, 0xb6, 0x42, 0x9b, 0x26,
  0x87, 0x14, 0x70, 0x0c, 0x5f, 0xc5, 0xc2, 0x3e,
  0x97, 0x23, 0x83, 0x13, 0x6c, 0x0c, 0x5c, 0xb1,
  0xc9, 0x76, 0xbc, 0x4a, 0xaa, 0x20, 0x8d, 0x12,
  0x78, 0x93, 0xbf, 0x46, 0xa3, 0x26, 0x8d, 0x14,
  0x74, 0x0c, 0x62, 0xc8, 0xc4, 0x3b, 0x97, 0x21,
  0x82, 0x11, 0x6a, 0x0a, 0x59, 0xa3, 0xb9, 0x68,
  0xa9, 0x30, 0x8d, 0x1a, 0x78, 0x0f, 0x61, 0xa0,
  0xc9, 0x73, 0xbe, 0x50, 0xb1, 0x30, 0x9f, 0x14,
  0x80, 0x83, 0xb7, 0x3c, 0x9a, 0x20, 0x84, 0x0e,
  0x6a, 0x0a, 0x57, 0xac, 0xc2, 0x68, 0xb0, 0x2e,
  0x92, 0x19, 0x7c, 0x0d, 0x63, 0x93, 0xbe, 0x62,
  0xb0, 0x3c, 0x9e, 0x1a, 0x80, 0x0e, 0x6b, 0xbb,
  0x02, 0xa0, 0x02, 0xa0, 0x02, 0x6f, 0x00, 0x75,
  0x00, 0x75, 0x00, 0x00, 0x00, 0xad, 0x02, 0xb3,
  0x02, 0x6f, 0x00, 0x87, 0x00, 0x85, 0xfe, 0x03,
  0x00, 0xc2, 0x02, 0x82, 0x4d, 0x92, 0x6e, 0x4d,
  0xb1, 0xa8, 0x84, 0x01, 0x00, 0x07, 0x7e, 0x00,
  0xa8, 0x02, 0xa4, 0x02, 0xa4, 0x02, 0xa2, 0x00,
  0xa6, 0x00, 0xa6, 0x00, 0x00, 0x00, 0xb4, 0x02,
  0xb4, 0x02, 0x92, 0x00, 0x96, 0x00, 0x96, 0x46,
  0x04, 0xb0, 0x02, 0x64, 0x02, 0x0a, 0x8c, 0x00,
  0x90, 0x02, 0x98, 0x02, 0x98, 0x02, 0x0e, 0x01,
  0x11, 0x01, 0x11, 0x50, 0xc3, 0x08, 0x88, 0x02,
  0x88, 0x02, 0x19, 0x01, 0x02, 0x01, 0x02, 0x01,
  0xf3, 0x2d, 0x00, 0x00
]

/-- The aligned magic scan of `hc_wlan_data_unpack_lzor` (rb_hardconfig.c
lines 512-519):

    needle = (const u32 *)tempbuf;
    while (RB_MAGIC_ERD != *needle++) {
        if ((u8 *)needle >= tempbuf + templen) fail -ENODATA;
    }

`scratch` is the scratch buffer's memory, `templen` its filled length, `p`
the current probe offset.  Each step reads the 32-bit word at `p` first and
bounds-checks only afterwards, exactly as the do-before-check C loop does.
The `fuel` argument makes the recursion structural; `none` means the fuel ran
out before the loop exited (`erdScan_isSome_of_fuel` shows the fuel used by
the pipeline, `templen / 4 + 1`, never does).  `some (some m)` is a match at
byte offset `m`; `some none` is the `-ENODATA` exit. -/
def erdScan (scratch : Nat → Nat) (templen : Nat) : Nat → Nat → Option (Option Nat)
  | 0, _ => none
  | fuel + 1, p =>
    if readWord32 scratch p = RB_MAGIC_ERD then some (some p)
    else if templen ≤ p + 4 then some none
    else erdScan scratch templen fuel (p + 4)

/-- The list of byte offsets at which `erdScan` reads a 32-bit word, in
order: the same recursion as `erdScan`, recording each probe. -/
def erdScanProbes (scratch : Nat → Nat) (templen : Nat) : Nat → Nat → List Nat
  | 0, _ => []
  | fuel + 1, p =>
    p :: (if readWord32 scratch p = RB_MAGIC_ERD then []
          else if templen ≤ p + 4 then []
          else erdScanProbes scratch templen fuel (p + 4))

/-- Contents of the scratch buffer `tempbuf` after decompression produced
`produced`: the produced bytes, then the buffer's uninitialised remainder
(arbitrary `junk`). -/
def scratchOf (produced : List Nat) (junk : Nat → Nat) : Nat → Nat :=
  fun i => if h : i < produced.length then produced.get ⟨i, h⟩ else junk i

/-- The `templen -= (u8 *)needle - tempbuf` update after the scan found the
magic at offset `m` (`needle` then points at `m + 4`): `size_t` subtraction,
which wraps modulo `2 ^ 64` when `m + 4 > templen`. -/
def lzorTailLen (templen m : Nat) : Nat := sub64 templen (m + 4)

/-- The region handed to `routerboot_tag_find` after the magic at offset `m`:
the scratch bytes starting at `m + 4`, of length `lzorTailLen templen m`. -/
def lzorTail (scratch : Nat → Nat) (templen m : Nat) : List Nat :=
  (List.range' (m + 4) (lzorTailLen templen m)).map scratch

/-- The bytes `lzo1x_decompress_safe` reads in the LZOR strategy: the
dictionary-priming blob followed by the record bytes, as assembled by the two
`memcpy` calls (rb_hardconfig.c lines 487-488). -/
def lzorCompressedInput (inByte : Nat → Nat) (inlen : Nat) : List Nat :=
  hc_lzor_prefix ++ (List.range inlen).map inByte

/-- Contents of the output buffer after the two `memcpy` calls of the LZOR
strategy: prefix, then record bytes, then the untouched remainder of the
caller's buffer. -/
def lzorOutbuf1 (inByte : Nat → Nat) (inlen : Nat) (outbuf0 : List Nat) : List Nat :=
  lzorCompressedInput inByte inlen ++ outbuf0.drop (inlen + hc_lzor_prefix.length)

/-- The LZOR strategy from the magic scan onwards (rb_hardconfig.c lines
507-539): scan for the aligned ERD magic (`-ENODATA` when absent), call
`routerboot_tag_find` on the tail past the magic for id 1, check the located
length against the remaining length (`-EINVAL`), then RLE-decode the located
payload into the output buffer.  The scan is run with fuel `templen / 4 + 1`,
which `erdScan_isSome_of_fuel` proves sufficient; the fuel-exhaustion arm is
collapsed into the `-ENODATA` exit and is unreachable.  The second component
is the output buffer's contents on return (partial writes of a failed RLE
decode are not modelled; no claim inspects the buffer after an RLE failure). -/
def lzorAfterScan
    (tagFind : List Nat → Nat → Nat → Option (Nat × Nat))
    (rle : List Nat → Nat → Option (List Nat))
    (scratch : Nat → Nat) (templen outcap : Nat) (outbuf1 : List Nat) :
    Except UnpackErr (List Nat) × List Nat :=
  match erdScan scratch templen (templen / 4 + 1) 0 with
  | some (some m) =>
    match tagFind (lzorTail scratch templen m) (lzorTailLen templen m) 1 with
    | none => (Except.error UnpackErr.MissingTag, outbuf1)
    | some (rleOfs, rleLen) =>
      if lzorTailLen templen m < rleLen then (Except.error UnpackErr.InvalidLength, outbuf1)
      else
        match rle ((List.range' (m + 4 + rleOfs) rleLen).map scratch) outcap with
        | none => (Except.error UnpackErr.DecodeError, outbuf1)
        | some out => (Except.ok out, out ++ outbuf1.drop out.length)
  | _ => (Except.error UnpackErr.EmbeddedMagicNotFound, outbuf1)

/-- `hc_wlan_data_unpack_lzor` (rb_hardconfig.c lines 467-543).  Arguments:
`decomp` is `lzo1x_decompress_safe`, `tagFind` is `routerboot_tag_find`,
`rle` is `routerboot_rle_decode`, `junk` the uninitialised contents of the
freshly allocated scratch buffer, `inByte`/`inlen` the record bytes past the
LZOR magic, `outcap` the caller's `*outlen`, `outbuf0` the output buffer's
initial contents.  Returns the result (`Except`) and the output buffer's
final contents.  The capacity check `lzo_len > *outlen`, with
`lzo_len = inlen + sizeof(hc_lzor_prefix)` computed in wrapping `size_t`
arithmetic (modulo `2 ^ 64`), precedes every write and the decompressor
call; a fatal decompressor status aborts, while `LZO_E_INPUT_NOT_CONSUMED`
falls through to the magic scan.  When the `lzo_len` sum wraps
(`inlen ≥ 2 ^ 64 - 1380`, reachable through the dispatcher's `tlen -= 4`
underflow on a record shorter than 4 bytes), the guard can pass although
prefix + record cannot fit, and the C code then performs an unchecked
`memcpy` of `inlen` bytes — undefined behavior with no C counterpart to
model — so past the guard this function tracks the C code only on inputs
whose sum does not wrap; every theorem about the strategy's continuation
carries the hypothesis `inlen + hc_lzor_prefix.length ≤ outcap` (which, for
any `size_t`-representable capacity, forces the sum not to wrap) or an
explicit `< 2 ^ 64` bound. -/
def hc_wlan_data_unpack_lzor
    (decomp : List Nat → Nat → LzoStatus × List Nat)
    (tagFind : List Nat → Nat → Nat → Option (Nat × Nat))
    (rle : List Nat → Nat → Option (List Nat))
    (junk : Nat → Nat)
    (inByte : Nat → Nat) (inlen : Nat)
    (outcap : Nat) (outbuf0 : List Nat) :
    Except UnpackErr (List Nat) × List Nat :=
  if outcap < (inlen + hc_lzor_prefix.length) % U64 then
    (Except.error UnpackErr.EFBIG, outbuf0)
  else
    match decomp (lzorCompressedInput inByte inlen) outcap with
    | (LzoStatus.err c, _) =>
      (Except.error (UnpackErr.DecompressionFailed (LzoStatus.err c)),
       lzorOutbuf1 inByte inlen outbuf0)
    | (LzoStatus.ok, produced) =>
      lzorAfterScan tagFind rle (scratchOf produced junk) produced.length outcap
        (lzorOutbuf1 inByte inlen outbuf0)
    | (LzoStatus.inputNotConsumed, produced) =>
      lzorAfterScan tagFind rle (scratchOf produced junk) produced.length outcap
        (lzorOutbuf1 inByte inlen outbuf0)

/-- `hc_wlan_data_unpack_erd` (rb_hardconfig.c lines 431-457): find the
embedded tag with id 1 in the record region, check the located length against
the region length (`lzo_len > inlen` yields `-EINVAL`), then LZO-decompress
the located payload.  `byteAt` is the memory at the region's start pointer,
so the payload slice `byteAt [lzoOfs, lzoOfs + lzoLen)` can extend past
`inlen`, exactly as the C pointer arithmetic can.  In this strategy every
non-success decompressor status (including `LZO_E_INPUT_NOT_CONSUMED`) is
returned as a failure. -/
def hc_wlan_data_unpack_erd
    (tagFind : List Nat → Nat → Nat → Option (Nat × Nat))
    (decomp : List Nat → Nat → LzoStatus × List Nat)
    (byteAt : Nat → Nat) (inlen outcap : Nat) :
    Except UnpackErr (List Nat) :=
  match tagFind ((List.range inlen).map byteAt) inlen 1 with
  | none => Except.error UnpackErr.MissingTag
  | some (lzoOfs, lzoLen) =>
    if inlen < lzoLen then Except.error UnpackErr.InvalidLength
    else
      match decomp ((List.range' lzoOfs lzoLen).map byteAt) outcap with
      | (LzoStatus.ok, out) => Except.ok out
      | (st, _) => Except.error (UnpackErr.DecompressionFailed st)

/-- `hc_wlan_data_unpack` (rb_hardconfig.c lines 545-586): bounds-check the
record against the blob (`-EIO`), read the record's first 4 bytes as a 32-bit
magic, and dispatch: LZOR magic → LZOR strategy on the record minus the
magic; ERD magic → ERD strategy on the record minus the magic; anything else
→ RLE-decode the whole record (magic bytes included) into the output buffer.
`byteAt` is the memory at `hc_buf`, `hcBuflen` is `hc_buflen`.  The
`tlen -= sizeof(magic)` updates are `size_t` subtractions (`sub64`).  The
LZOR strategy's output-buffer component is dropped (`.fst`): the initial
contents of the freshly allocated buffer never reach the returned data, so
they are modelled as `[]`. -/
def hc_wlan_data_unpack
    (tagFind : List Nat → Nat → Nat → Option (Nat × Nat))
    (decomp : List Nat → Nat → LzoStatus × List Nat)
    (rle : List Nat → Nat → Option (List Nat))
    (junk : Nat → Nat)
    (byteAt : Nat → Nat) (hcBuflen : Nat)
    (tofs tlen outcap : Nat) :
    Except UnpackErr (List Nat) :=
  if hcBuflen < tofs + tlen then Except.error UnpackErr.EIO
  else if readWord32 (fun i => byteAt (tofs + i)) 0 = RB_MAGIC_LZOR then
    (hc_wlan_data_unpack_lzor decomp tagFind rle junk
      (fun i => byteAt (tofs + 4 + i)) (sub64 tlen 4) outcap []).fst
  else if readWord32 (fun i => byteAt (tofs + i)) 0 = RB_MAGIC_ERD then
    hc_wlan_data_unpack_erd tagFind decomp
      (fun i => byteAt (tofs + 4 + i)) (sub64 tlen 4) outcap
  else
    match rle ((List.range tlen).map (fun i => byteAt (tofs + i))) outcap with
    | none => Except.error UnpackErr.DecodeError
    | some out => Except.ok out

/-- `hc_attr_show` (rb_hardconfig.c lines 588-604) for one attribute:
a zero payload length (the absent-record state set at init, lines 708-710,
or a present-but-empty record) yields `-ENOENT` without calling the
renderer; otherwise the renderer `tshow` runs on the payload region. -/
def hc_attr_show
    (tshow : List Nat → Nat → Except UnpackErr (List Nat))
    (byteAt : Nat → Nat) (pld_ofs pld_len : Nat) :
    Except UnpackErr (List Nat) :=
  if pld_len = 0 then Except.error UnpackErr.ENOENT
  else tshow ((List.range' pld_ofs pld_len).map byteAt) pld_len

/-- The static attribute table `hc_attrs` viewed as a map from index to that
attribute's `(pld_ofs, pld_len)` state, with `hc_attr_show` applied to entry
`i`'s own state only. -/
def hc_attr_show_at
    (tshow : List Nat → Nat → Except UnpackErr (List Nat))
    (byteAt : Nat → Nat) (attrs : Nat → Nat × Nat) (i : Nat) :
    Except UnpackErr (List Nat) :=
  hc_attr_show tshow byteAt (attrs i).1 (attrs i).2

/-- `hc_wlan_data_bin_read` (rb_hardconfig.c lines 612-654): `-ENOENT` on a
zero-length record, `-EFBIG` when the still-encoded payload already exceeds
`RB_ART_SIZE`, then unpack with capacity `RB_ART_SIZE`; on success, a read at
`off` for `count` bytes returns no bytes when `off ≥ outlen` and otherwise
the slice `[off, off + min count (outlen - off))` of the decoded bytes.  The
`Except.ok` payload is the byte slice copied to the caller (its length is the
returned byte count). -/
def hc_wlan_data_bin_read
    (tagFind : List Nat → Nat → Nat → Option (Nat × Nat))
    (decomp : List Nat → Nat → LzoStatus × List Nat)
    (rle : List Nat → Nat → Option (List Nat))
    (junk : Nat → Nat)
    (byteAt : Nat → Nat) (hcBuflen : Nat)
    (pld_ofs pld_len : Nat) (off count : Nat) :
    Except UnpackErr (List Nat) :=
  if pld_len = 0 then Except.error UnpackErr.ENOENT
  else if RB_ART_SIZE < pld_len then Except.error UnpackErr.EFBIG
  else
    match hc_wlan_data_unpack tagFind decomp rle junk byteAt hcBuflen pld_ofs pld_len RB_ART_SIZE with
    | Except.error e => Except.error e
    | Except.ok out =>
      if out.length ≤ off then Except.ok []
      else
        Except.ok ((out.drop off).take
          (if out.length < off + count then out.length - off else count))


/-- Concrete scratch-memory junk whose first word is the ERD magic: the
little-endian bytes of `RB_MAGIC_ERD` at offsets 0-3, zero elsewhere. -/
def c1Junk : Nat → Nat := fun i =>
  if i = 0 then 0x44 else if i = 1 then 0x52 else if i = 2 then 0x45 else 0

/-- Concrete tag scanner that never finds a record. -/
def cxNoTagFind : List Nat → Nat → Nat → Option (Nat × Nat) := fun _ _ _ => none

/-- Concrete decompressor producing zero bytes with full success. -/
def cxDecompEmpty : List Nat → Nat → LzoStatus × List Nat := fun _ _ => (LzoStatus.ok, [])

/-- Concrete RLE decoder that always fails. -/
def cxRleNone : List Nat → Nat → Option (List Nat) := fun _ _ => none

/-- Concrete RLE decoder producing zero bytes with success. -/
def cxRleEmpty : List Nat → Nat → Option (List Nat) := fun _ _ => some []

/-- Concrete tag scanner reporting a record at offset 3 of length 4 (so the
payload end offset 7 can exceed a region length of 4 while the length alone
does not). -/
def c2TagFind : List Nat → Nat → Nat → Option (Nat × Nat) := fun _ _ _ => some (3, 4)

/-- Concrete decompressor echoing its input bytes (so the bytes the pipeline
hands it are visible in the result). -/
def c2DecompEcho : List Nat → Nat → LzoStatus × List Nat :=
  fun input _ => (LzoStatus.ok, input)

/-- Concrete memory: byte at index `i` is `i`. -/
def c2MemA : Nat → Nat := fun i => i

/-- Concrete memory agreeing with `c2MemA` on indices below 4 and differing
from it at every index from 4 on. -/
def c2MemB : Nat → Nat := fun i => if i < 4 then i else 99

/-- Concrete tag scanner that answers only when the region length it is given
is nonzero: it agrees with `cxNoTagFind` at region length 0. -/
def c4TagFindLen : List Nat → Nat → Nat → Option (Nat × Nat) :=
  fun _ len _ => if len = 0 then none else some (0, 0)

/-- Concrete decompressor producing 8 bytes whose first word is the ERD
magic. -/
def c4DecompMagic : List Nat → Nat → LzoStatus × List Nat :=
  fun _ _ => (LzoStatus.ok, [0x44, 0x52, 0x45, 0, 0, 0, 0, 0])

set_option maxRecDepth 8000 in
/-- Length of the dictionary-priming blob. -/
lemma hc_lzor_prefix_length : hc_lzor_prefix.length = 1380 := by decide

/-- Wrap-around subtraction agrees with `Nat` subtraction when it does not
wrap. -/
lemma sub64_eq (a b : Nat) (hba : b ≤ a) (ha : a < 2 ^ 64) : sub64 a b = a - b := by
  unfold sub64 U64
  have h : (2 : Nat) ^ 64 = 18446744073709551616 := by norm_num
  rw [h] at ha ⊢
  omega

/-- The scan loop exits within its fuel whenever the fuel exceeds the number
of remaining aligned probes: the probe offset grows by 4 each step and the
loop stops (at the latest) once the next probe would start at or past
`templen`. -/
lemma erdScan_isSome_of_fuel (scratch : Nat → Nat) (templen : Nat) :
    ∀ fuel p, (templen - (p + 1)) / 4 < fuel →
      (erdScan scratch templen fuel p).isSome = true := by
  intro fuel
  induction fuel with
  | zero => intro p h; exact absurd h (Nat.not_lt_zero _)
  | succ f ih =>
    intro p h
    by_cases h1 : readWord32 scratch p = RB_MAGIC_ERD
    · simp [erdScan, h1]
    · by_cases h2 : templen ≤ p + 4
      · simp [erdScan, h1, h2]
      · rw [show erdScan scratch templen (f + 1) p = erdScan scratch templen f (p + 4) from by
          simp [erdScan, h1, h2]]
        exact ih (p + 4) (by omega)

/-- Every recorded probe offset keeps the start offset's residue mod 4 and is
either the start offset itself or lies strictly below the filled length. -/
lemma erdScanProbes_mem (scratch : Nat → Nat) (templen : Nat) :
    ∀ fuel p0 p, p ∈ erdScanProbes scratch templen fuel p0 →
      p % 4 = p0 % 4 ∧ (p = p0 ∨ (p0 + 4 ≤ p ∧ p < templen)) := by
  intro fuel
  induction fuel with
  | zero => intro p0 p h; simp [erdScanProbes] at h
  | succ f ih =>
    intro p0 p h
    simp only [erdScanProbes] at h
    rcases List.mem_cons.mp h with h | h
    · subst h; exact ⟨rfl, Or.inl rfl⟩
    · by_cases h1 : readWord32 scratch p0 = RB_MAGIC_ERD
      · rw [if_pos h1] at h; simp at h
      · by_cases h2 : templen ≤ p0 + 4
        · rw [if_neg h1, if_pos h2] at h; simp at h
        · rw [if_neg h1, if_neg h2] at h
          rcases ih (p0 + 4) p h with ⟨hm, hor⟩
          refine ⟨by omega, Or.inr ?_⟩
          rcases hor with h3 | h3 <;> omega

/-- When no recorded probe reads the magic, the scan either exits with the
not-found result or runs out of fuel. -/
lemma erdScan_nomatch (scratch : Nat → Nat) (templen : Nat) :
    ∀ fuel p0,
      (∀ p ∈ erdScanProbes scratch templen fuel p0, readWord32 scratch p ≠ RB_MAGIC_ERD) →
      erdScan scratch templen fuel p0 = some none ∨
      erdScan scratch templen fuel p0 = none := by
  intro fuel
  induction fuel with
  | zero => intro p0 _; right; rfl
  | succ f ih =>
    intro p0 hall
    have h1 : readWord32 scratch p0 ≠ RB_MAGIC_ERD := by
      apply hall; simp [erdScanProbes]
    by_cases h2 : templen ≤ p0 + 4
    · left; simp [erdScan, h1, h2]
    · have htail : ∀ p ∈ erdScanProbes scratch templen f (p0 + 4),
          readWord32 scratch p ≠ RB_MAGIC_ERD := by
        intro p hp
        apply hall
        simp only [erdScanProbes, if_neg h1, if_neg h2]
        exact List.mem_cons_of_mem _ hp
      rw [show erdScan scratch templen (f + 1) p0 = erdScan scratch templen f (p0 + 4) from by
        simp [erdScan, h1, h2]]
      exact ih (p0 + 4) htail

/-- When the capacity check passes and the decompressor result is success or
`LZO_E_INPUT_NOT_CONSUMED`, the LZOR strategy reaches the magic scan on the
scratch buffer filled with the decompressor's output. -/
lemma lzor_reach
    (decomp : List Nat → Nat → LzoStatus × List Nat)
    (tagFind : List Nat → Nat → Nat → Option (Nat × Nat))
    (rle : List Nat → Nat → Option (List Nat))
    (junk inByte : Nat → Nat) (inlen outcap : Nat) (outbuf0 : List Nat)
    (st : LzoStatus) (produced : List Nat)
    (hEF : inlen + hc_lzor_prefix.length ≤ outcap)
    (hd : decomp (lzorCompressedInput inByte inlen) outcap = (st, produced))
    (hst : st = LzoStatus.ok ∨ st = LzoStatus.inputNotConsumed) :
    hc_wlan_data_unpack_lzor decomp tagFind rle junk inByte inlen outcap outbuf0
      = lzorAfterScan tagFind rle (scratchOf produced junk) produced.length outcap
          (lzorOutbuf1 inByte inlen outbuf0) := by
  unfold hc_wlan_data_unpack_lzor
  rw [if_neg (by have hm := Nat.mod_le (inlen + hc_lzor_prefix.length) U64; omega), hd]
  rcases hst with h | h <;> subst h <;> rfl

/-- Claim C7: the aligned magic-scan loop of the Lzor strategy terminates for
every scratch-buffer content and every filled length `templen`: run with the
explicit probe bound `templen / 4 + 1` (one probe per aligned offset up to
the filled length), the scan always returns a result — the probe offset
strictly increases by 4 each iteration and the loop exits no later than when
the next probe offset reaches the filled length. -/
theorem claim_C7_scan_terminates (scratch : Nat → Nat) (templen : Nat) :
    (erdScan scratch templen (templen / 4 + 1) 0).isSome = true :=
  erdScan_isSome_of_fuel scratch templen (templen / 4 + 1) 0 (by omega)

/-- Claim C5, amended.  The capacity check of the Lzor strategy compares the
output capacity against `lzo_len = inlen + sizeof(hc_lzor_prefix)` computed
in wrapping `size_t` arithmetic: when that wrapped value exceeds the
capacity, the strategy fails with `-EFBIG` and the output buffer is returned
unchanged, for every decompressor, tag scanner and RLE decoder (so none of
them is invoked before the failure).  Whenever the sum does not wrap — every
case with a `size_t`-representable capacity above it — this is exactly the
original claim (second conjunct). -/
theorem claim_C5_amended
    (decomp : List Nat → Nat → LzoStatus × List Nat)
    (tagFind : List Nat → Nat → Nat → Option (Nat × Nat))
    (rle : List Nat → Nat → Option (List Nat))
    (junk inByte : Nat → Nat) (inlen outcap : Nat) (outbuf0 : List Nat) :
    (outcap < (inlen + hc_lzor_prefix.length) % U64 →
      hc_wlan_data_unpack_lzor decomp tagFind rle junk inByte inlen outcap outbuf0
        = (Except.error UnpackErr.EFBIG, outbuf0))
    ∧ (inlen + hc_lzor_prefix.length < 2 ^ 64 →
       outcap < inlen + hc_lzor_prefix.length →
      hc_wlan_data_unpack_lzor decomp tagFind rle junk inByte inlen outcap outbuf0
        = (Except.error UnpackErr.EFBIG, outbuf0)) := by
  constructor
  · intro h
    unfold hc_wlan_data_unpack_lzor
    rw [if_pos h]
  · intro hnw h
    have hm : (inlen + hc_lzor_prefix.length) % U64 = inlen + hc_lzor_prefix.length :=
      Nat.mod_eq_of_lt (by unfold U64; exact hnw)
    unfold hc_wlan_data_unpack_lzor
    rw [if_pos (by rw [hm]; exact h)]

set_option maxRecDepth 8000 in
/-- Counterexample to claim C5 as stated: the dispatcher's `tlen -= 4`
underflow on an in-bounds 1-byte record whose 4-byte over-read spells the
LZOR magic hands the strategy `inlen = sub64 1 4 = 2 ^ 64 - 3`.  There the
true total `inlen + 1380` exceeds the capacity 65536 (`RB_ART_SIZE`), so the
claim demands `-EFBIG` before any write — but C computes
`lzo_len = inlen + 1380` in `size_t`, getting 1377, the guard passes, and
the code goes on to write (an unchecked out-of-bounds `memcpy`) instead of
failing.  The model, faithful to the guard, likewise does not return
`-EFBIG`: with concrete collaborators it runs on to `MissingTag`. -/
theorem claim_C5_counterexample :
    sub64 1 4 = 2 ^ 64 - 3
    ∧ (2 ^ 64 - 3 + hc_lzor_prefix.length) % U64 = 1377
    ∧ 65536 < 2 ^ 64 - 3 + hc_lzor_prefix.length
    ∧ (hc_wlan_data_unpack_lzor cxDecompEmpty cxNoTagFind cxRleNone c1Junk
        (fun _ => 0) (2 ^ 64 - 3) 65536 []).fst = Except.error UnpackErr.MissingTag
    ∧ (hc_wlan_data_unpack_lzor cxDecompEmpty cxNoTagFind cxRleNone c1Junk
        (fun _ => 0) (2 ^ 64 - 3) 65536 []).fst ≠ Except.error UnpackErr.EFBIG := by
  refine ⟨by decide, by decide, by decide, rfl, ?_⟩
  intro h
  rw [show (hc_wlan_data_unpack_lzor cxDecompEmpty cxNoTagFind cxRleNone c1Junk
      (fun _ => 0) (2 ^ 64 - 3) 65536 []).fst = Except.error UnpackErr.MissingTag from rfl] at h
  exact UnpackErr.noConfusion (Except.error.inj h)

/-- Witness for the amended C5 at concrete inputs: record length 0 with
capacity 0 (below the 1380-byte prefix) fails with `-EFBIG` and an untouched
buffer, through the wrapped guard (first conjunct) and through the
non-wrapping reading (second conjunct, capacity 100). -/
theorem claim_C5_witness :
    hc_wlan_data_unpack_lzor cxDecompEmpty cxNoTagFind cxRleNone c1Junk
        (fun _ => 0) 0 0 []
      = (Except.error UnpackErr.EFBIG, [])
    ∧ hc_wlan_data_unpack_lzor cxDecompEmpty cxNoTagFind cxRleNone c1Junk
        (fun _ => 0) 0 100 []
      = (Except.error UnpackErr.EFBIG, []) := by
  have h1 := claim_C5_amended cxDecompEmpty cxNoTagFind cxRleNone c1Junk
      (fun _ => 0) 0 0 []
  have h2 := claim_C5_amended cxDecompEmpty cxNoTagFind cxRleNone c1Junk
      (fun _ => 0) 0 100 []
  exact ⟨h1.1 (by rw [hc_lzor_prefix_length]; decide),
         h2.2 (by rw [hc_lzor_prefix_length]; decide)
              (by rw [hc_lzor_prefix_length]; decide)⟩

/-- Claim C10: a stored payload length exceeding `RB_ART_SIZE` makes the
calibration binary read fail with `-EFBIG`; the conclusion holds for every
tag scanner, decompressor and RLE decoder, so the unpack pipeline is never
invoked. -/
theorem claim_C10_efbig_before_unpack
    (tagFind : List Nat → Nat → Nat → Option (Nat × Nat))
    (decomp : List Nat → Nat → LzoStatus × List Nat)
    (rle : List Nat → Nat → Option (List Nat))
    (junk byteAt : Nat → Nat) (hcBuflen pld_ofs pld_len off count : Nat)
    (h : RB_ART_SIZE < pld_len) :
    hc_wlan_data_bin_read tagFind decomp rle junk byteAt hcBuflen
        pld_ofs pld_len off count
      = Except.error UnpackErr.EFBIG := by
  unfold hc_wlan_data_bin_read
  rw [if_neg (by unfold RB_ART_SIZE at h; omega), if_pos h]

/-- Witness for C10 at a concrete input: payload length `RB_ART_SIZE + 1`. -/
theorem claim_C10_witness :
    hc_wlan_data_bin_read cxNoTagFind cxDecompEmpty cxRleNone c1Junk
        (fun _ => 0) 8 0 65537 0 16
      = Except.error UnpackErr.EFBIG :=
  claim_C10_efbig_before_unpack cxNoTagFind cxDecompEmpty cxRleNone c1Junk
    (fun _ => 0) 8 0 65537 0 16 (by decide)

/-- Claim C1, amended.  The aligned magic scan probes 4-byte-aligned offsets
starting at 0; the probe at offset 0 is read unconditionally — before any
bounds check — and every later probe starts strictly below the filled length
(so a probed word can extend up to 3 bytes past the filled length, and the
word at offset 0 is read even when the filled length is below 4).  When the
filled length is a positive multiple of 4, every probed word does lie
entirely within the filled region.  If no probed word equals the ERD magic,
the scan reports not-found, and the strategy then fails with
`EmbeddedMagicNotFound`. -/
theorem claim_C1_amended :
    (∀ scratch templen p, p ∈ erdScanProbes scratch templen (templen / 4 + 1) 0 →
        p % 4 = 0 ∧ (p = 0 ∨ p < templen))
    ∧ (∀ scratch templen, templen % 4 = 0 → 4 ≤ templen →
        ∀ p ∈ erdScanProbes scratch templen (templen / 4 + 1) 0, p + 4 ≤ templen)
    ∧ (∀ scratch templen,
        (∀ p ∈ erdScanProbes scratch templen (templen / 4 + 1) 0,
            readWord32 scratch p ≠ RB_MAGIC_ERD) →
        erdScan scratch templen (templen / 4 + 1) 0 = some none)
    ∧ (∀ tagFind rle scratch templen outcap outbuf1,
        erdScan scratch templen (templen / 4 + 1) 0 = some none →
        lzorAfterScan tagFind rle scratch templen outcap outbuf1
          = (Except.error UnpackErr.EmbeddedMagicNotFound, outbuf1)) := by
  refine ⟨?_, ?_, ?_, ?_⟩
  · intro scratch templen p hp
    rcases erdScanProbes_mem scratch templen (templen / 4 + 1) 0 p hp with ⟨hm, hor⟩
    refine ⟨by omega, ?_⟩
    rcases hor with h | h
    · exact Or.inl h
    · exact Or.inr h.2
  · intro scratch templen hmod hle p hp
    rcases erdScanProbes_mem scratch templen (templen / 4 + 1) 0 p hp with ⟨hm, hor⟩
    rcases hor with h | h <;> omega
  · intro scratch templen hall
    rcases erdScan_nomatch scratch templen (templen / 4 + 1) 0 hall with h | h
    · exact h
    · have htot := erdScan_isSome_of_fuel scratch templen (templen / 4 + 1) 0 (by omega)
      rw [h] at htot
      exact absurd htot (by simp)
  · intro tagFind rle scratch templen outcap outbuf1 h
    unfold lzorAfterScan
    rw [h]

set_option maxRecDepth 8000 in
/-- Counterexample to claim C1 as stated: with a decompressed (filled) length
of 0 and leftover scratch memory whose first word happens to be the ERD
magic, the scan still reads the 32-bit word at offset 0 — a read at and past
the filled length — and "finds" the magic there, so the strategy proceeds
(here to `MissingTag`) instead of failing with `EmbeddedMagicNotFound`, even
though no 4-byte-aligned magic exists within the (empty) filled region. -/
theorem claim_C1_counterexample :
    0 ∈ erdScanProbes (scratchOf [] c1Junk) 0 (0 / 4 + 1) 0
    ∧ ¬ (0 + 4 ≤ 0)
    ∧ erdScan (scratchOf [] c1Junk) 0 (0 / 4 + 1) 0 = some (some 0)
    ∧ (hc_wlan_data_unpack_lzor cxDecompEmpty cxNoTagFind cxRleNone c1Junk
        (fun _ => 0) 0 1380 []).fst = Except.error UnpackErr.MissingTag
    ∧ (hc_wlan_data_unpack_lzor cxDecompEmpty cxNoTagFind cxRleNone c1Junk
        (fun _ => 0) 0 1380 []).fst ≠ Except.error UnpackErr.EmbeddedMagicNotFound := by
  refine ⟨by decide, by decide, by decide, rfl, ?_⟩
  intro h
  rw [show (hc_wlan_data_unpack_lzor cxDecompEmpty cxNoTagFind cxRleNone c1Junk
        (fun _ => 0) 0 1380 []).fst = Except.error UnpackErr.MissingTag from rfl] at h
  exact UnpackErr.noConfusion (Except.error.inj h)

/-- Witness for the amended C1 at concrete inputs: probe 4 of a scan with
filled length 8 is aligned and below the filled length; with filled length 8
(a positive multiple of 4) the probe at 0 stays within the filled region;
with filled length 5 and all-zero scratch no probe matches, the scan reports
not-found and the strategy fails with `EmbeddedMagicNotFound`. -/
theorem claim_C1_witness :
    (4 % 4 = 0 ∧ (4 = 0 ∨ 4 < 8))
    ∧ 0 + 4 ≤ 8
    ∧ erdScan (fun _ => 0) 5 (5 / 4 + 1) 0 = some none
    ∧ lzorAfterScan cxNoTagFind cxRleNone (fun _ => 0) 5 16 []
        = (Except.error UnpackErr.EmbeddedMagicNotFound, []) :=
  ⟨claim_C1_amended.1 (fun _ => 0) 8 4 (by decide),
   claim_C1_amended.2.1 (fun _ => 0) 8 (by decide) (by decide) 0 (by decide),
   claim_C1_amended.2.2.1 (fun _ => 0) 5 (by decide),
   claim_C1_amended.2.2.2 cxNoTagFind cxRleNone (fun _ => 0) 5 16 [] (by decide)⟩

/-- Claim C2, amended.  Before any access to an embedded payload, both the
Erd and Lzor strategies validate only that the located payload LENGTH does
not exceed the region length; when that check fires the strategy fails with
`InvalidLength` and the payload is never read (the conclusion holds for
every decompressor resp. RLE decoder, so neither is invoked).  The payload
offset is not validated, so a located record whose offset + length exceeds
the region length while its length alone does not passes the check and its
payload — which extends past the region — is accessed (see the
counterexample). -/
theorem claim_C2_amended :
    (∀ (tagFind : List Nat → Nat → Nat → Option (Nat × Nat))
       (decomp : List Nat → Nat → LzoStatus × List Nat)
       (byteAt : Nat → Nat) (inlen outcap lzoOfs lzoLen : Nat),
        tagFind ((List.range inlen).map byteAt) inlen 1 = some (lzoOfs, lzoLen) →
        inlen < lzoLen →
        hc_wlan_data_unpack_erd tagFind decomp byteAt inlen outcap
          = Except.error UnpackErr.InvalidLength)
    ∧ (∀ (decomp : List Nat → Nat → LzoStatus × List Nat)
         (tagFind : List Nat → Nat → Nat → Option (Nat × Nat))
         (rle : List Nat → Nat → Option (List Nat))
         (junk inByte : Nat → Nat) (inlen outcap : Nat) (outbuf0 : List Nat)
         (st : LzoStatus) (produced : List Nat) (m rleOfs rleLen : Nat),
        inlen + hc_lzor_prefix.length ≤ outcap →
        decomp (lzorCompressedInput inByte inlen) outcap = (st, produced) →
        (st = LzoStatus.ok ∨ st = LzoStatus.inputNotConsumed) →
        erdScan (scratchOf produced junk) produced.length (produced.length / 4 + 1) 0
          = some (some m) →
        tagFind (lzorTail (scratchOf produced junk) produced.length m)
            (lzorTailLen produced.length m) 1 = some (rleOfs, rleLen) →
        lzorTailLen produced.length m < rleLen →
        (hc_wlan_data_unpack_lzor decomp tagFind rle junk inByte inlen outcap outbuf0).fst
          = Except.error UnpackErr.InvalidLength) := by
  constructor
  · intro tagFind decomp byteAt inlen outcap lzoOfs lzoLen htf hlen
    unfold hc_wlan_data_unpack_erd
    simp only [htf]
    rw [if_pos hlen]
  · intro decomp tagFind rle junk inByte inlen outcap outbuf0 st produced m rleOfs rleLen
      hEF hd hst hscan htf hlen
    rw [lzor_reach decomp tagFind rle junk inByte inlen outcap outbuf0 st produced hEF hd hst]
    unfold lzorAfterScan
    simp only [hscan, htf]
    rw [if_pos hlen]

/-- Counterexample to claim C2 as stated: a tag scanner reporting a record at
offset 3 of length 4 in a region of length 4 violates offset + length ≤
region length (3 + 4 > 4), yet the length-only check passes (4 ≤ 4) and the
strategy does not fail with `InvalidLength`; the payload handed to the
decompressor is read from beyond the region — two memories agreeing on the
whole region (indices 0-3) but differing past it yield different results. -/
theorem claim_C2_counterexample :
    (List.range 4).map c2MemA = (List.range 4).map c2MemB
    ∧ hc_wlan_data_unpack_erd c2TagFind c2DecompEcho c2MemA 4 16
        = Except.ok [3, 4, 5, 6]
    ∧ hc_wlan_data_unpack_erd c2TagFind c2DecompEcho c2MemB 4 16
        = Except.ok [3, 99, 99, 99]
    ∧ hc_wlan_data_unpack_erd c2TagFind c2DecompEcho c2MemA 4 16
        ≠ Except.error UnpackErr.InvalidLength := by
  refine ⟨by decide, rfl, rfl, ?_⟩
  intro h
  rw [show hc_wlan_data_unpack_erd c2TagFind c2DecompEcho c2MemA 4 16
      = Except.ok [3, 4, 5, 6] from rfl] at h
  exact Except.noConfusion h

/-- Witness for the amended C2 at a concrete input: a located length of 9 in
a region of length 4 makes the Erd strategy fail with `InvalidLength`. -/
theorem claim_C2_witness :
    hc_wlan_data_unpack_erd (fun _ _ _ => some (0, 9)) c2DecompEcho c2MemA 4 16
      = Except.error UnpackErr.InvalidLength :=
  claim_C2_amended.1 (fun _ _ _ => some (0, 9)) c2DecompEcho c2MemA 4 16 0 9 rfl
    (by decide)

/-- Claim C4, amended.  Once the scan has located the magic at offset `m`,
the tag scanner is invoked on the region starting at byte `m + 4` of the
scratch buffer with length `(decompressed length - m - 4)` computed in
`size_t` arithmetic, i.e. modulo `2 ^ 64`: the strategy's result depends on
the tag scanner only through its answer on exactly that region and length,
and the length equals `decompressed length - m - 4` whenever
`m + 4 ≤ decompressed length`; when the located magic's word extends past
the filled length (possible, since probes are read before the bounds check)
the subtraction wraps around instead. -/
theorem claim_C4_amended
    (decomp : List Nat → Nat → LzoStatus × List Nat)
    (rle : List Nat → Nat → Option (List Nat))
    (junk inByte : Nat → Nat) (inlen outcap : Nat) (outbuf0 : List Nat)
    (st : LzoStatus) (produced : List Nat) (m : Nat)
    (hEF : inlen + hc_lzor_prefix.length ≤ outcap)
    (hd : decomp (lzorCompressedInput inByte inlen) outcap = (st, produced))
    (hst : st = LzoStatus.ok ∨ st = LzoStatus.inputNotConsumed)
    (hscan : erdScan (scratchOf produced junk) produced.length
        (produced.length / 4 + 1) 0 = some (some m)) :
    (∀ tf1 tf2 : List Nat → Nat → Nat → Option (Nat × Nat),
        tf1 (lzorTail (scratchOf produced junk) produced.length m)
            (lzorTailLen produced.length m) 1
          = tf2 (lzorTail (scratchOf produced junk) produced.length m)
              (lzorTailLen produced.length m) 1 →
        hc_wlan_data_unpack_lzor decomp tf1 rle junk inByte inlen outcap outbuf0
          = hc_wlan_data_unpack_lzor decomp tf2 rle junk inByte inlen outcap outbuf0)
    ∧ (m + 4 ≤ produced.length → produced.length < 2 ^ 64 →
        lzorTailLen produced.length m = produced.length - (m + 4))
    ∧ lzorTailLen produced.length m = (produced.length + 2 ^ 64 - (m + 4)) % 2 ^ 64 := by
  refine ⟨?_, ?_, rfl⟩
  · intro tf1 tf2 hagree
    rw [lzor_reach decomp tf1 rle junk inByte inlen outcap outbuf0 st produced hEF hd hst,
        lzor_reach decomp tf2 rle junk inByte inlen outcap outbuf0 st produced hEF hd hst]
    unfold lzorAfterScan
    simp only [hscan]
    rw [hagree]
  · intro h1 h2
    exact sub64_eq produced.length (m + 4) h1 h2

set_option maxRecDepth 8000 in
/-- Counterexample to claim C4 as stated: with decompressed length 0 and the
magic found at offset 0 (in leftover scratch memory), the claimed invoked
length "decompressed length - m - 4" is 0 (it is negative as an integer),
but the strategy behaves differently under two tag scanners that agree at
that length and on that region (they differ only at the wrapped `size_t`
length `2 ^ 64 - 4` the code actually passes): one run fails with
`MissingTag`, the other succeeds. -/
theorem claim_C4_counterexample :
    c4TagFindLen (lzorTail (scratchOf [] c1Junk) 0 0) ((0 : Nat) - 0 - 4) 1
      = cxNoTagFind (lzorTail (scratchOf [] c1Junk) 0 0) ((0 : Nat) - 0 - 4) 1
    ∧ lzorTailLen 0 0 = 2 ^ 64 - 4
    ∧ (hc_wlan_data_unpack_lzor cxDecompEmpty cxNoTagFind cxRleEmpty c1Junk
        (fun _ => 0) 0 1380 []).fst = Except.error UnpackErr.MissingTag
    ∧ (hc_wlan_data_unpack_lzor cxDecompEmpty c4TagFindLen cxRleEmpty c1Junk
        (fun _ => 0) 0 1380 []).fst = Except.ok [] := by
  exact ⟨rfl, by decide, rfl, rfl⟩

/-- Witness for the amended C4 at a concrete input: with a decompressor
producing 8 bytes starting with the ERD magic, the strategy's dependence on
the tag scanner factors through the located tail, and the invoked length is
8 - (0 + 4) = 4. -/
theorem claim_C4_witness :
    (hc_wlan_data_unpack_lzor c4DecompMagic cxNoTagFind cxRleEmpty c1Junk
        (fun _ => 0) 0 1380 []
      = hc_wlan_data_unpack_lzor c4DecompMagic cxNoTagFind cxRleEmpty c1Junk
        (fun _ => 0) 0 1380 [])
    ∧ lzorTailLen 8 0 = 8 - (0 + 4) := by
  have h := claim_C4_amended c4DecompMagic cxRleEmpty c1Junk (fun _ => 0) 0 1380 []
      LzoStatus.ok [0x44, 0x52, 0x45, 0, 0, 0, 0, 0] 0
      (by rw [hc_lzor_prefix_length]) rfl (Or.inl rfl) (by decide)
  exact ⟨h.1 cxNoTagFind cxNoTagFind rfl, h.2.1 (by decide) (by decide)⟩

/-- Claim C6: a `LZO_E_INPUT_NOT_CONSUMED` result from the decompressor is
non-fatal — the strategy proceeds to the magic scan exactly as on full
success, with the same produced bytes — while any other non-success result
aborts the decode with `DecompressionFailed`.  The hypotheses `hEF` and
`hsz` confine the statement to the region where the `size_t` sum
`inlen + sizeof(hc_lzor_prefix)` does not wrap: the only executions that
reach the decompressor in C without undefined behavior. -/
theorem claim_C6_decomp_status
    (d1 : List Nat → Nat → LzoStatus × List Nat)
    (tagFind : List Nat → Nat → Nat → Option (Nat × Nat))
    (rle : List Nat → Nat → Option (List Nat))
    (junk inByte : Nat → Nat) (inlen outcap : Nat) (outbuf0 out : List Nat)
    (hEF : inlen + hc_lzor_prefix.length ≤ outcap)
    (hsz : inlen + hc_lzor_prefix.length < 2 ^ 64)
    (hd1 : d1 (lzorCompressedInput inByte inlen) outcap
      = (LzoStatus.inputNotConsumed, out)) :
    hc_wlan_data_unpack_lzor d1 tagFind rle junk inByte inlen outcap outbuf0
      = lzorAfterScan tagFind rle (scratchOf out junk) out.length outcap
          (lzorOutbuf1 inByte inlen outbuf0)
    ∧ (∀ d2, d2 (lzorCompressedInput inByte inlen) outcap = (LzoStatus.ok, out) →
        hc_wlan_data_unpack_lzor d1 tagFind rle junk inByte inlen outcap outbuf0
          = hc_wlan_data_unpack_lzor d2 tagFind rle junk inByte inlen outcap outbuf0)
    ∧ (∀ (d3 : List Nat → Nat → LzoStatus × List Nat) (c : Int) (pr : List Nat),
        d3 (lzorCompressedInput inByte inlen) outcap = (LzoStatus.err c, pr) →
        (hc_wlan_data_unpack_lzor d3 tagFind rle junk inByte inlen outcap outbuf0).fst
          = Except.error (UnpackErr.DecompressionFailed (LzoStatus.err c))) := by
  refine ⟨?_, ?_, ?_⟩
  · exact lzor_reach d1 tagFind rle junk inByte inlen outcap outbuf0
      LzoStatus.inputNotConsumed out hEF hd1 (Or.inr rfl)
  · intro d2 hd2
    rw [lzor_reach d1 tagFind rle junk inByte inlen outcap outbuf0
          LzoStatus.inputNotConsumed out hEF hd1 (Or.inr rfl),
        lzor_reach d2 tagFind rle junk inByte inlen outcap outbuf0
          LzoStatus.ok out hEF hd2 (Or.inl rfl)]
  · intro d3 c pr hd3
    unfold hc_wlan_data_unpack_lzor
    rw [if_neg (by
      have hm : (inlen + hc_lzor_prefix.length) % U64 = inlen + hc_lzor_prefix.length :=
        Nat.mod_eq_of_lt (by unfold U64; exact hsz)
      omega), hd3]

/-- Witness for C6 at a concrete input: a decompressor reporting
`LZO_E_INPUT_NOT_CONSUMED` with no produced bytes behaves exactly like one
reporting full success with no produced bytes, and a decompressor failing
with code -1 yields `DecompressionFailed`. -/
theorem claim_C6_witness :
    hc_wlan_data_unpack_lzor (fun _ _ => (LzoStatus.inputNotConsumed, [])) cxNoTagFind
        cxRleNone c1Junk (fun _ => 0) 0 1380 []
      = hc_wlan_data_unpack_lzor cxDecompEmpty cxNoTagFind cxRleNone c1Junk
          (fun _ => 0) 0 1380 []
    ∧ (hc_wlan_data_unpack_lzor (fun _ _ => (LzoStatus.err (-1), [])) cxNoTagFind
        cxRleNone c1Junk (fun _ => 0) 0 1380 []).fst
      = Except.error (UnpackErr.DecompressionFailed (LzoStatus.err (-1))) := by
  have h := claim_C6_decomp_status (fun _ _ => (LzoStatus.inputNotConsumed, []))
      cxNoTagFind cxRleNone c1Junk (fun _ => 0) 0 1380 [] []
      (by rw [hc_lzor_prefix_length]) (by rw [hc_lzor_prefix_length]; decide) rfl
  exact ⟨h.2.1 cxDecompEmpty rfl, h.2.2 (fun _ _ => (LzoStatus.err (-1), [])) (-1) [] rfl⟩

/-- Claim C3: for an in-bounds record (of at least the 4 magic bytes), unpack
reads the record's first 4 bytes as a 32-bit magic and dispatches three ways:
the LZOR magic selects the Lzor strategy on the record minus its first 4
bytes, the ERD magic selects the Erd strategy likewise, and any other value
sends the whole record — magic bytes included — to the run-length decoder,
whose failure becomes `DecodeError`. -/
theorem claim_C3_dispatch
    (tagFind : List Nat → Nat → Nat → Option (Nat × Nat))
    (decomp : List Nat → Nat → LzoStatus × List Nat)
    (rle : List Nat → Nat → Option (List Nat))
    (junk byteAt : Nat → Nat) (hcBuflen tofs tlen outcap : Nat)
    (hin : tofs + tlen ≤ hcBuflen) (h4 : 4 ≤ tlen) (hsz : tlen < 2 ^ 64) :
    (readWord32 (fun i => byteAt (tofs + i)) 0 = RB_MAGIC_LZOR →
      hc_wlan_data_unpack tagFind decomp rle junk byteAt hcBuflen tofs tlen outcap
        = (hc_wlan_data_unpack_lzor decomp tagFind rle junk
            (fun i => byteAt (tofs + 4 + i)) (tlen - 4) outcap []).fst)
    ∧ (readWord32 (fun i => byteAt (tofs + i)) 0 = RB_MAGIC_ERD →
      hc_wlan_data_unpack tagFind decomp rle junk byteAt hcBuflen tofs tlen outcap
        = hc_wlan_data_unpack_erd tagFind decomp
            (fun i => byteAt (tofs + 4 + i)) (tlen - 4) outcap)
    ∧ (readWord32 (fun i => byteAt (tofs + i)) 0 ≠ RB_MAGIC_LZOR →
       readWord32 (fun i => byteAt (tofs + i)) 0 ≠ RB_MAGIC_ERD →
      hc_wlan_data_unpack tagFind decomp rle junk byteAt hcBuflen tofs tlen outcap
        = match rle ((List.range tlen).map (fun i => byteAt (tofs + i))) outcap with
          | none => Except.error UnpackErr.DecodeError
          | some out => Except.ok out) := by
  have hio : ¬ hcBuflen < tofs + tlen := by omega
  have hsub : sub64 tlen 4 = tlen - 4 := sub64_eq tlen 4 h4 hsz
  refine ⟨?_, ?_, ?_⟩
  · intro h
    unfold hc_wlan_data_unpack
    rw [if_neg hio, if_pos h, hsub]
  · intro h
    unfold hc_wlan_data_unpack
    rw [if_neg hio, if_neg (by rw [h]; decide), if_pos h, hsub]
  · intro h1 h2
    unfold hc_wlan_data_unpack
    rw [if_neg hio, if_neg h1, if_neg h2]

/-- Witness for C3 at a concrete input: a record of 4 zero bytes matches
neither magic, so the whole record goes to the RLE decoder; a failing
decoder yields `DecodeError`. -/
theorem claim_C3_witness :
    hc_wlan_data_unpack cxNoTagFind cxDecompEmpty cxRleNone c1Junk (fun _ => 0) 8 0 4 16
      = Except.error UnpackErr.DecodeError := by
  have h := claim_C3_dispatch cxNoTagFind cxDecompEmpty cxRleNone c1Junk (fun _ => 0)
      8 0 4 16 (by decide) (by decide) (by decide)
  exact (h.2.2 (by decide) (by decide)).trans rfl

/-- The clamped byte count of the copy-out stage equals
`min count (length - off)`. -/
lemma bin_read_count_eq (L off count : Nat) (hoff : ¬ L ≤ off) :
    (if L < off + count then L - off else count) = min count (L - off) := by
  by_cases hc : L < off + count
  · rw [if_pos hc]
    exact (Nat.min_eq_right (by omega)).symm
  · rw [if_neg hc]
    exact (Nat.min_eq_left (by omega)).symm

/-- Claim C8: on a successful decode producing `out` (of length L), a read
at offset `off` for `count` bytes returns exactly the slice
`out[off, off + min count (L - off))` — zero bytes when `off ≥ L` — and the
returned byte count is `min count (L - off)`; only decoded bytes (never
bytes past L) are returned, since the slice is taken from `out` itself. -/
theorem claim_C8_read_bounds
    (tagFind : List Nat → Nat → Nat → Option (Nat × Nat))
    (decomp : List Nat → Nat → LzoStatus × List Nat)
    (rle : List Nat → Nat → Option (List Nat))
    (junk byteAt : Nat → Nat) (hcBuflen pld_ofs pld_len off count : Nat)
    (out : List Nat)
    (h0 : pld_len ≠ 0) (h1 : pld_len ≤ RB_ART_SIZE)
    (hu : hc_wlan_data_unpack tagFind decomp rle junk byteAt hcBuflen
        pld_ofs pld_len RB_ART_SIZE = Except.ok out) :
    hc_wlan_data_bin_read tagFind decomp rle junk byteAt hcBuflen
        pld_ofs pld_len off count
      = Except.ok ((out.drop off).take (min count (out.length - off)))
    ∧ (out.length ≤ off →
        hc_wlan_data_bin_read tagFind decomp rle junk byteAt hcBuflen
            pld_ofs pld_len off count
          = Except.ok [])
    ∧ ((out.drop off).take (min count (out.length - off))).length
        = min count (out.length - off) := by
  have hmain : hc_wlan_data_bin_read tagFind decomp rle junk byteAt hcBuflen
      pld_ofs pld_len off count
      = if out.length ≤ off then Except.ok []
        else Except.ok ((out.drop off).take
          (if out.length < off + count then out.length - off else count)) := by
    unfold hc_wlan_data_bin_read
    rw [if_neg h0, if_neg (show ¬ RB_ART_SIZE < pld_len by omega), hu]
  refine ⟨?_, ?_, ?_⟩
  · rw [hmain]
    by_cases hoff : out.length ≤ off
    · rw [if_pos hoff, List.drop_eq_nil_of_le hoff, List.take_nil]
    · rw [if_neg hoff, bin_read_count_eq out.length off count hoff]
  · intro hoff
    rw [hmain, if_pos hoff]
  · rw [List.length_take, List.length_drop, Nat.min_assoc, Nat.min_self]

/-- Witness for C8 at a concrete input: a raw record decoding to [7, 8, 9];
a read at offset 1 for 5 bytes returns exactly the 2 remaining decoded
bytes. -/
theorem claim_C8_witness :
    hc_wlan_data_bin_read cxNoTagFind cxDecompEmpty (fun _ _ => some [7, 8, 9]) c1Junk
        (fun _ => 0) 8 0 4 1 5
      = Except.ok [8, 9] := by
  have h := claim_C8_read_bounds cxNoTagFind cxDecompEmpty (fun _ _ => some [7, 8, 9])
      c1Junk (fun _ => 0) 8 0 4 1 5 [7, 8, 9] (by decide) (by decide) rfl
  exact h.1

/-- Claim C9: an attribute whose record is absent or has zero payload length
yields `-ENOENT` from both the attribute renderer path and the calibration
binary read (never empty output), for every renderer and every unpack
collaborator — so neither the renderer nor the unpack pipeline is invoked —
and rendering one attribute depends only on that attribute's own table
entry, so altering any other entry leaves it unchanged. -/
theorem claim_C9_absent_enoent :
    (∀ (tshow : List Nat → Nat → Except UnpackErr (List Nat)) (byteAt : Nat → Nat)
       (pld_ofs : Nat),
        hc_attr_show tshow byteAt pld_ofs 0 = Except.error UnpackErr.ENOENT)
    ∧ (∀ (tagFind : List Nat → Nat → Nat → Option (Nat × Nat))
         (decomp : List Nat → Nat → LzoStatus × List Nat)
         (rle : List Nat → Nat → Option (List Nat))
         (junk byteAt : Nat → Nat) (hcBuflen pld_ofs off count : Nat),
        hc_wlan_data_bin_read tagFind decomp rle junk byteAt hcBuflen
            pld_ofs 0 off count
          = Except.error UnpackErr.ENOENT)
    ∧ (∀ (tshow : List Nat → Nat → Except UnpackErr (List Nat)) (byteAt : Nat → Nat)
         (attrs : Nat → Nat × Nat) (i j : Nat) (v : Nat × Nat), i ≠ j →
        hc_attr_show_at tshow byteAt (Function.update attrs j v) i
          = hc_attr_show_at tshow byteAt attrs i) := by
  refine ⟨fun tshow byteAt pld_ofs => rfl, fun _ _ _ _ _ _ _ _ _ => rfl, ?_⟩
  intro tshow byteAt attrs i j v hij
  unfold hc_attr_show_at
  rw [Function.update_noteq hij]

/-- Witness for C9 at concrete inputs: attribute with zero payload length
renders `-ENOENT`, the binary read of a zero-length record is `-ENOENT`, and
updating table entry 1 leaves the rendering of entry 0 unchanged. -/
theorem claim_C9_witness :
    hc_attr_show (fun pld _ => Except.ok pld) (fun _ => 0) 3 0
      = Except.error UnpackErr.ENOENT
    ∧ hc_wlan_data_bin_read cxNoTagFind cxDecompEmpty cxRleNone c1Junk
        (fun _ => 0) 8 0 0 0 4
      = Except.error UnpackErr.ENOENT
    ∧ hc_attr_show_at (fun pld _ => Except.ok pld) (fun _ => 0)
        (Function.update (fun _ => (0, 0)) 1 (5, 0)) 0
      = hc_attr_show_at (fun pld _ => Except.ok pld) (fun _ => 0) (fun _ => (0, 0)) 0 :=
  ⟨claim_C9_absent_enoent.1 (fun pld _ => Except.ok pld) (fun _ => 0) 3,
   claim_C9_absent_enoent.2.1 cxNoTagFind cxDecompEmpty cxRleNone c1Junk
     (fun _ => 0) 8 0 0 4,
   claim_C9_absent_enoent.2.2 (fun pld _ => Except.ok pld) (fun _ => 0)
     (fun _ => (0, 0)) 0 1 (5, 0) (by decide)⟩
